import Mathlib

/-!
# Verification of the movie-recommendation backend's cache layer and TMDb client

This file is a shallow embedding, in Lean 4, of the two core components of the
`movierec_backend` repository:

* `utils/cache_service.py` — the `RedisCacheService` class (read-through cache
  with per-category keys and TTLs, backed by Redis); and
* `utils/tmdb_client.py` — the `TMDbClient` class (HTTP client for the TMDb
  API with input validation, retry/backoff, and status-code-to-exception
  mapping), together with the exception classes of `utils/exceptions.py`.

Modelling conventions:

* Python exceptions are modelled with `Except PyExc`.  A function that can
  raise returns `Except PyExc α`; `.error e` is a raised exception escaping
  the function, `.ok a` a normal return.
* JSON-serializable Python values are modelled by `Option JsonVal`, where
  `none` is Python `None` (= JSON `null`) and `JsonVal` covers booleans,
  integers, strings, arrays and objects.  Floating-point numbers are not
  modelled (no claim involves them).  A Python value on which `json.dumps`
  raises `TypeError` (e.g. a `set`) is `PyData.nonser`.
* The contract of the `json` library (not code of this repository) is
  embedded at the level of its algebra: `json.dumps` of a serializable value
  yields a parseable string, modelled as `RedisVal.json v`; a stored byte
  string that is not valid JSON is `RedisVal.invalid s`.  `json.loads`
  inverts `dumps` and fails on invalid input.  `json.dumps` never returns an
  empty string, so `RedisVal.json` is always truthy under Python's
  `if cached_data:` test, while an (invalid) empty string is falsy.
* The Redis connection is `Option RedisConn`: `none` models an `__init__`
  that failed and set `self.redis_client = None`.  `RedisConn.pingOk` models
  whether `ping()` succeeds, and `RedisConn.opOk` whether `get`/`setex`/
  `delete` succeed or raise a `RedisError` — `pingOk = true, opOk = false`
  is a connection failing mid-operation, after the defensive `_is_connected`
  probe passed.  Redis state changes are modelled by returning the new
  connection state alongside the Python return value.
* Ints (`page`, `tmdb_id`, `user_id`) are Python ints, modelled as `Int`;
  Python `str(i)` is `Int.repr`, which agrees with Python's rendering.
* The HTTP transport of the TMDb client is abstracted as a function
  `net : Nat → NetOutcome` giving, for each attempt index, what
  `session.get` does on that attempt: return a response, raise
  `requests.exceptions.Timeout` / `ConnectionError` / another
  `RequestException`.  `ReqResult.attempts` counts the HTTP calls actually
  made (0 when validation fails before any call) and `ReqResult.sleeps`
  records the `time.sleep` durations, in order.
-/

/-- A JSON value, as produced by `json.loads` (minus `null`, which is
represented by `none` at use sites, and floats, which no claim involves).
Numbers are integers; objects are ordered field lists, as Python dicts
preserve insertion order. -/
inductive JsonVal where
  | bool (b : Bool)
  | num (n : Int)
  | str (s : String)
  | arr (elems : List JsonVal)
  | obj (fields : List (String × JsonVal))

/-- A Python value handed to the cache service as a payload: either
JSON-serializable (`ser v`, with `none` for Python `None`) or a value on
which `json.dumps(…, cls=DjangoJSONEncoder)` raises `TypeError`
(`nonser`, e.g. a Python `set`). -/
inductive PyData where
  | ser (v : Option JsonVal)
  | nonser (tag : String)

/-- The exceptions of `utils/exceptions.py` used by the client and the cache
service, plus the builtin `ValueError`/`TypeError`.  `externalAPI` carries
`message`, `status_code` and `error_code` exactly as `ExternalAPIException`
(defaults `502` and `"EXTERNAL_API_ERROR"` are written out at raise sites). -/
inductive PyExc where
  | externalAPI (message : String) (statusCode : Nat) (errorCode : String)
  | authentication (message : String)
  | rateLimit (message : String)
  | valueError (message : String)
  | typeError (message : String)
deriving DecidableEq

/-- The string `str(e)` of an exception: `APIException.__init__` calls
`super().__init__(self.message)`, so `str(e)` is the message. -/
def PyExc.message : PyExc → String
  | .externalAPI m _ _ => m
  | .authentication m => m
  | .rateLimit m => m
  | .valueError m => m
  | .typeError m => m

/-- A string stored in Redis (the service uses `decode_responses=True`):
either the `json.dumps` image of a serializable value, or bytes that do not
parse as JSON (`invalid`, e.g. written by a foreign client or corrupted). -/
inductive RedisVal where
  | json (v : Option JsonVal)
  | invalid (s : String)

/-- Python truthiness of the stored string: `json.dumps` output is never the
empty string, hence always truthy; an arbitrary byte string is falsy iff
empty. -/
def RedisVal.truthy : RedisVal → Bool
  | .json _ => true
  | .invalid s => !(s == "")

namespace RedisCacheService

/-- Source: `RedisCacheService._serialize_data`.  `json.dumps` succeeds on
serializable data; on `TypeError`/`ValueError` the method logs and
**re-raises** (the `raise` statement in the source). -/
def serialize_data : PyData → Except PyExc RedisVal
  | .ser v => .ok (.json v)
  | .nonser tag => .error (.typeError ("Object of type " ++ tag ++ " is not JSON serializable"))

/-- Source: `RedisCacheService._deserialize_data`.  `json.loads` of a valid
JSON string returns the value; on failure the method catches and returns
`None`.  Note Python cannot distinguish a parsed JSON `null` from the
`None` returned on failure: both are `none` here. -/
def deserialize_data : RedisVal → Option JsonVal
  | .json v => v
  | .invalid _ => none

/-- One Redis entry: the stored string together with the expiry installed by
`SETEX` at write time. -/
structure StoredEntry where
  val : RedisVal
  ttl : Nat

/-- The Redis keyspace: an association list, first binding wins. -/
abbrev Store := List (String × StoredEntry)

/-- Look a key up in the keyspace. -/
def storeFind : Store → String → Option StoredEntry
  | [], _ => none
  | (k1, e) :: rest, k => if k1 == k then some e else storeFind rest k

/-- Redis `DEL key`: removes every binding of the key. -/
def storeDel : Store → String → Store
  | [], _ => []
  | (k1, e) :: rest, k => if k1 == k then storeDel rest k else (k1, e) :: storeDel rest k

/-- Redis `SETEX key ttl value`: binds `k`, replacing any previous binding. -/
def storeSetex (s : Store) (k : String) (v : RedisVal) (ttl : Nat) : Store :=
  (k, ⟨v, ttl⟩) :: storeDel s k

/-- The Redis connection held in `self.redis_client` when it is not `None`.
`pingOk` models whether `ping()` succeeds; `opOk` whether the data commands
succeed or raise a `RedisError` (a connection failing mid-operation has
`pingOk = true, opOk = false`). -/
structure RedisConn where
  store : Store
  pingOk : Bool
  opOk : Bool

/-- Redis `GET`: raises (`.error`) when the connection is failing, else
returns the stored string or `None`. -/
def redisGet (c : RedisConn) (k : String) : Except Unit (Option RedisVal) :=
  if c.opOk then .ok ((storeFind c.store k).map (fun e => e.val)) else .error ()

/-- Redis `SETEX`: raises when the connection is failing, else writes. -/
def redisSetex (c : RedisConn) (k : String) (ttl : Nat) (v : RedisVal) :
    Except Unit RedisConn :=
  if c.opOk then .ok { c with store := storeSetex c.store k v ttl } else .error ()

/-- Redis `DEL`: raises when the connection is failing, else deletes. -/
def redisDelete (c : RedisConn) (k : String) : Except Unit RedisConn :=
  if c.opOk then .ok { c with store := storeDel c.store k } else .error ()

/-- Source: `RedisCacheService._is_connected` — `False` when
`self.redis_client` is `None`, otherwise a defensive `ping()` with all Redis
errors caught and reported as `False`. -/
def is_connected : Option RedisConn → Bool
  | none => false
  | some c => c.pingOk

/-- Cache TTLs (in seconds), from the class constants. -/
def TRENDING_MOVIES_TTL : Nat := 3600

/-- Recommendations TTL: 1 hour. -/
def RECOMMENDATIONS_TTL : Nat := 3600

/-- User-info TTL: 15 minutes. -/
def USER_INFO_TTL : Nat := 900

/-- Cache key prefixes, from the class constants. -/
def TRENDING_MOVIES_KEY : String := "trending_movies"

/-- Recommendations key prefix. -/
def RECOMMENDATIONS_KEY : String := "recommended_movies"

/-- User-info key prefix. -/
def USER_INFO_KEY : String := "user"

/-- Python `str(i)` for an int. -/
def pyStr (i : Int) : String := Int.repr i

/-- The f-string `f"{TRENDING_MOVIES_KEY}:{time_window}:page:{page}"`. -/
def trendingKey (time_window : String) (page : Int) : String :=
  TRENDING_MOVIES_KEY ++ (":" ++ (time_window ++ (":page:" ++ pyStr page)))

/-- The f-string `f"{RECOMMENDATIONS_KEY}:{tmdb_id}:page:{page}"`. -/
def recommendationsKey (tmdb_id : Int) (page : Int) : String :=
  RECOMMENDATIONS_KEY ++ (":" ++ (pyStr tmdb_id ++ (":page:" ++ pyStr page)))

/-- The f-string `f"{USER_INFO_KEY}:{user_id}"`. -/
def userKey (user_id : Int) : String :=
  USER_INFO_KEY ++ (":" ++ pyStr user_id)

/-- Shared shape of the three `get_*` methods: bail out with `None` when not
connected; `GET` the key with Redis errors caught to `None`; a falsy cached
string (`None` from Redis, or the empty string) is a miss; otherwise
deserialize (which itself absorbs parse failures into `None`). -/
def getByKey (client : Option RedisConn) (key : String) :
    Except PyExc (Option JsonVal) :=
  if is_connected client = false then .ok none else
  match client with
  | none => .ok none
  | some c =>
    match redisGet c key with
    | .error _ => .ok none
    | .ok none => .ok none
    | .ok (some rv) => if rv.truthy then .ok (deserialize_data rv) else .ok none

/-- Shared shape of the three `set_*` methods: bail out with `False` when not
connected; serialize (a `TypeError` raised there is **not** caught — the
`except` clause lists only the Redis error classes); `SETEX` with Redis
errors caught to `False`; return `True` on success. -/
def setByKey (client : Option RedisConn) (key : String) (ttl : Nat)
    (data : PyData) : Except PyExc (Bool × Option RedisConn) :=
  if is_connected client = false then .ok (false, client) else
  match client with
  | none => .ok (false, client)
  | some c =>
    match serialize_data data with
    | .error e => .error e
    | .ok rv =>
      match redisSetex c key ttl rv with
      | .error _ => .ok (false, client)
      | .ok c' => .ok (true, some c')

/-- Source: `RedisCacheService.get_trending_movies`. -/
def get_trending_movies (client : Option RedisConn) (time_window : String)
    (page : Int) : Except PyExc (Option JsonVal) :=
  getByKey client (trendingKey time_window page)

/-- Source: `RedisCacheService.set_trending_movies`. -/
def set_trending_movies (client : Option RedisConn) (data : PyData)
    (time_window : String) (page : Int) : Except PyExc (Bool × Option RedisConn) :=
  setByKey client (trendingKey time_window page) TRENDING_MOVIES_TTL data

/-- Source: `RedisCacheService.get_movie_recommendations`. -/
def get_movie_recommendations (client : Option RedisConn) (tmdb_id : Int)
    (page : Int) : Except PyExc (Option JsonVal) :=
  getByKey client (recommendationsKey tmdb_id page)

/-- Source: `RedisCacheService.set_movie_recommendations`. -/
def set_movie_recommendations (client : Option RedisConn) (tmdb_id : Int)
    (data : PyData) (page : Int) : Except PyExc (Bool × Option RedisConn) :=
  setByKey client (recommendationsKey tmdb_id page) RECOMMENDATIONS_TTL data

/-- Source: `RedisCacheService.get_user_info`. -/
def get_user_info (client : Option RedisConn) (user_id : Int) :
    Except PyExc (Option JsonVal) :=
  getByKey client (userKey user_id)

/-- Source: `RedisCacheService.set_user_info`. -/
def set_user_info (client : Option RedisConn) (user_id : Int) (data : PyData) :
    Except PyExc (Bool × Option RedisConn) :=
  setByKey client (userKey user_id) USER_INFO_TTL data

/-- Source: `RedisCacheService.invalidate_user_cache` — `DEL` on the user key,
Redis errors caught to `False`. -/
def invalidate_user_cache (client : Option RedisConn) (user_id : Int) :
    Except PyExc (Bool × Option RedisConn) :=
  if is_connected client = false then .ok (false, client) else
  match client with
  | none => .ok (false, client)
  | some c =>
    match redisDelete c (userKey user_id) with
    | .error _ => .ok (false, client)
    | .ok c' => .ok (true, some c')

/-- Python `data.get(key, default)` as used by the `cache_multiple_*`
methods.  Only serializable dict payloads have a `get` method; on any other
payload Python raises `AttributeError` (modelled as a raised exception — the
claims under verification only exercise dict payloads, so the modelled
message text is immaterial). -/
def pyDictGet (data : PyData) (key : String) (dflt : JsonVal) :
    Except PyExc JsonVal :=
  match data with
  | .ser (some (.obj fields)) => .ok ((fields.lookup key).getD dflt)
  | _ => .error (.typeError "object has no attribute get")

/-- The integer value of a JSON value interpolated as a page number into an
f-string key.  The claims only exercise integer (or absent, defaulted) page
fields, so only `num` is given a meaning. -/
def jsonIntVal : JsonVal → Int
  | .num n => n
  | _ => 0

/-- Source: `RedisCacheService.cache_multiple_trending_pages`.  Reads
`total_pages` (used only for logging) and `page` from the payload, caches
**only** the current page via `set_trending_movies` (whose boolean result is
discarded), and returns `True`.  `max_pages` is accepted but never drives any
write. -/
def cache_multiple_trending_pages (client : Option RedisConn) (data : PyData)
    (time_window : String) (max_pages : Int) :
    Except PyExc (Bool × Option RedisConn) :=
  if is_connected client = false then .ok (false, client) else
  match pyDictGet data "total_pages" (.num 1) with
  | .error e => .error e
  | .ok _total_pages =>
    match pyDictGet data "page" (.num 1) with
    | .error e => .error e
    | .ok current_page =>
      match set_trending_movies client data time_window (jsonIntVal current_page) with
      | .error e => .error e
      | .ok (_, client') =>
        let _pages_to_cache := min max_pages (jsonIntVal _total_pages)
        .ok (true, client')

/-- Source: `RedisCacheService.cache_multiple_recommendation_pages`.  Same
shape as `cache_multiple_trending_pages`, over the recommendations key. -/
def cache_multiple_recommendation_pages (client : Option RedisConn)
    (tmdb_id : Int) (data : PyData) (max_pages : Int) :
    Except PyExc (Bool × Option RedisConn) :=
  if is_connected client = false then .ok (false, client) else
  match pyDictGet data "total_pages" (.num 1) with
  | .error e => .error e
  | .ok _total_pages =>
    match pyDictGet data "page" (.num 1) with
    | .error e => .error e
    | .ok current_page =>
      match set_movie_recommendations client tmdb_id data (jsonIntVal current_page) with
      | .error e => .error e
      | .ok (_, client') =>
        let _pages_to_cache := min max_pages (jsonIntVal _total_pages)
        .ok (true, client')

end RedisCacheService

/-- An HTTP response from the upstream API: the status code and the decoded
JSON body (the `response.json()` value for responses whose body decodes;
no claim depends on a body that fails to decode). -/
structure HTTPResponse where
  status_code : Nat
  body : Option JsonVal

/-- What `self.session.get(...)` does on one attempt: return a response, or
raise `requests.exceptions.Timeout`, `requests.exceptions.ConnectionError`,
or another `requests.exceptions.RequestException` with message `msg`. -/
inductive NetOutcome where
  | response (r : HTTPResponse)
  | timeout
  | connError
  | requestError (msg : String)

/-- Outcome of a `TMDbClient` operation: the returned payload or raised
exception, the number of HTTP calls actually made (`0` when input validation
fails before any network round-trip), and the `time.sleep` backoff durations
in the order they were waited. -/
structure ReqResult where
  result : Except PyExc (Option JsonVal)
  attempts : Nat
  sleeps : List Nat

namespace TMDbClient

/-- Class constant `MAX_RETRIES`. -/
def MAX_RETRIES : Nat := 3

/-- Class constant `RETRY_DELAY` (seconds). -/
def RETRY_DELAY : Nat := 1

/-- Class constant `TIMEOUT` (seconds), the per-call HTTP timeout. -/
def TIMEOUT : Nat := 10

/-- Source: `TMDbClient._handle_response` — maps the upstream status code to
a return value (200) or a raised exception, in the source's test order.
`ExternalAPIException`'s constructor defaults are `status_code=502`,
`error_code="EXTERNAL_API_ERROR"`; the 404 branch overrides both. -/
def handle_response (resp : HTTPResponse) : Except PyExc (Option JsonVal) :=
  if resp.status_code = 200 then .ok resp.body
  else if resp.status_code = 401 then .error (.authentication "TMDB API authentication failed")
  else if resp.status_code = 403 then .error (.authentication "TMDB API access forbidden")
  else if resp.status_code = 404 then .error (.externalAPI "Movie not found" 404 "MOVIE_NOT_FOUND")
  else if resp.status_code = 429 then .error (.rateLimit "TMDB API rate limit exceeded")
  else if resp.status_code ≥ 500 then
    .error (.externalAPI ("TMDB API server error: " ++ Nat.repr resp.status_code) 502 "EXTERNAL_API_ERROR")
  else .error (.externalAPI ("TMDB API error: " ++ Nat.repr resp.status_code) 502 "EXTERNAL_API_ERROR")

/-- The blanket `except Exception as e: raise ExternalAPIException(f"Unexpected
error: {str(e)}")` at the end of `_make_request`: any exception raised inside
the `try` block that is not a `requests` exception — which includes every
`APIException` raised by `_handle_response` — is replaced by this generic
wrapper. -/
def wrapUnexpected (e : PyExc) : PyExc :=
  .externalAPI ("Unexpected error: " ++ e.message) 502 "EXTERNAL_API_ERROR"

/-- Recursion core of `_make_request`.  The source recurses with
`retry_count + 1` while `retry_count < MAX_RETRIES`; here `fuel` is the
remaining retry budget `MAX_RETRIES - retry_count`, kept in that
correspondence by `make_request`, so `fuel = 0` is exactly the source's
guard `retry_count >= MAX_RETRIES` and the recursion is structural.
A response (any status) and a non-timeout, non-connection `RequestException`
are never retried; `Timeout` and `ConnectionError` sleep
`RETRY_DELAY * (2 ** retry_count)` and retry while budget remains, and raise
`ExternalAPIException` once it is exhausted. -/
def make_requestGo (net : Nat → NetOutcome) : Nat → Nat → ReqResult
  | fuel, retry_count =>
    match net retry_count with
    | .response r =>
      match handle_response r with
      | .ok v => ⟨.ok v, retry_count + 1, []⟩
      | .error e => ⟨.error (wrapUnexpected e), retry_count + 1, []⟩
    | .timeout =>
      match fuel with
      | fuel' + 1 =>
        let rest := make_requestGo net fuel' (retry_count + 1)
        ⟨rest.result, rest.attempts, RETRY_DELAY * 2 ^ retry_count :: rest.sleeps⟩
      | 0 => ⟨.error (.externalAPI "TMDB API request timeout" 502 "EXTERNAL_API_ERROR"),
             retry_count + 1, []⟩
    | .connError =>
      match fuel with
      | fuel' + 1 =>
        let rest := make_requestGo net fuel' (retry_count + 1)
        ⟨rest.result, rest.attempts, RETRY_DELAY * 2 ^ retry_count :: rest.sleeps⟩
      | 0 => ⟨.error (.externalAPI "TMDB API connection failed" 502 "EXTERNAL_API_ERROR"),
             retry_count + 1, []⟩
    | .requestError msg =>
      ⟨.error (.externalAPI ("TMDB API request failed: " ++ msg) 502 "EXTERNAL_API_ERROR"),
       retry_count + 1, []⟩

/-- Source: `TMDbClient._make_request(endpoint, params, retry_count)`.  The
`endpoint` and query parameters do not influence control flow (they only
address the upstream), so the transport behaviour is abstracted as `net`. -/
def make_request (net : Nat → NetOutcome) (retry_count : Nat) : ReqResult :=
  make_requestGo net (MAX_RETRIES - retry_count) retry_count

/-- A validation failure: `ValueError` raised before any network call. -/
def valErr (msg : String) : ReqResult := ⟨.error (.valueError msg), 0, []⟩

/-- Source: `TMDbClient.get_trending_movies` — validates `time_window` and
`page`, then issues the request; its `try/except` merely logs and re-raises,
so the result of `_make_request` passes through unchanged. -/
def get_trending_movies (net : Nat → NetOutcome) (time_window : String)
    (page : Int) : ReqResult :=
  if ¬(time_window = "day" ∨ time_window = "week") then
    valErr "time_window must be 'day' or 'week'"
  else if page < 1 then valErr "page must be greater than 0"
  else make_request net 0

/-- Source: `TMDbClient.get_movie_details` — `if not movie_id or not
str(movie_id).isdigit()`: for an int argument this rejects exactly the
non-positive values (`0` is falsy; a negative renders with a `-`). -/
def get_movie_details (net : Nat → NetOutcome) (movie_id : Int) : ReqResult :=
  if movie_id ≤ 0 then valErr "movie_id must be a valid integer"
  else make_request net 0

/-- Source: `TMDbClient.search_movies` — rejects an empty or whitespace-only
query (`not query or not query.strip()`: `strip()` yields the empty string
exactly when every character is whitespace), then a page below 1. -/
def search_movies (net : Nat → NetOutcome) (query : String) (page : Int) :
    ReqResult :=
  if query = "" ∨ query.data.all Char.isWhitespace = true then
    valErr "query cannot be empty"
  else if page < 1 then valErr "page must be greater than 0"
  else make_request net 0

/-- Source: `TMDbClient.get_movie_recommendations`. -/
def get_movie_recommendations (net : Nat → NetOutcome) (movie_id : Int)
    (page : Int) : ReqResult :=
  if movie_id ≤ 0 then valErr "movie_id must be a valid integer"
  else if page < 1 then valErr "page must be greater than 0"
  else make_request net 0

/-- Source: `TMDbClient.get_popular_movies`. -/
def get_popular_movies (net : Nat → NetOutcome) (page : Int) : ReqResult :=
  if page < 1 then valErr "page must be greater than 0"
  else make_request net 0

end TMDbClient

/-! ## Helper lemmas: decimal rendering, key strings, store operations -/

/-- True iff the computation returned normally (no exception escaped). -/
def noRaise {α : Type} : Except PyExc α → Bool
  | .ok _ => true
  | .error _ => false

/-- Numeric value of a decimal digit character. -/
def digitVal (c : Char) : Nat := c.toNat - 48

/-- Value of a big-endian decimal digit list. -/
def evalDigits (l : List Char) : Nat := l.foldl (fun a c => 10 * a + digitVal c) 0

theorem digitVal_digitChar (m : Nat) (hm : m < 10) :
    digitVal (Nat.digitChar m) = m := by
  interval_cases m <;> rfl

theorem digitChar_ne_colon (m : Nat) (hm : m < 10) : Nat.digitChar m ≠ ':' := by
  interval_cases m <;> decide

theorem digitChar_ne_dash (m : Nat) (hm : m < 10) : Nat.digitChar m ≠ '-' := by
  interval_cases m <;> decide

theorem toDigitsCore_shift (f : Nat) : ∀ (n : Nat) (ds : List Char),
    Nat.toDigitsCore 10 f n ds = Nat.toDigitsCore 10 f n [] ++ ds := by
  induction f with
  | zero => intro n ds; simp [Nat.toDigitsCore]
  | succ f ih =>
    intro n ds
    simp only [Nat.toDigitsCore]
    by_cases h : n / 10 = 0
    · simp [h]
    · simp only [h, if_false]
      rw [ih (n / 10) [Nat.digitChar (n % 10)],
        ih (n / 10) (Nat.digitChar (n % 10) :: ds), List.append_assoc]
      rfl

theorem toDigitsCore_evalDigits (f : Nat) : ∀ n, n < f →
    evalDigits (Nat.toDigitsCore 10 f n []) = n ∧
    Nat.toDigitsCore 10 f n [] ≠ [] ∧
    ∀ c ∈ Nat.toDigitsCore 10 f n [], ∃ k, k < 10 ∧ c = Nat.digitChar k := by
  induction f with
  | zero => intro n hn; omega
  | succ f ih =>
    intro n hn
    simp only [Nat.toDigitsCore]
    by_cases h : n / 10 = 0
    · have hlt : n < 10 := (Nat.div_eq_zero_iff (by norm_num)).mp h
      refine ⟨?_, by simp [h], ?_⟩
      · simp only [h, if_true]
        show evalDigits [Nat.digitChar (n % 10)] = n
        rw [Nat.mod_eq_of_lt hlt]
        simp only [evalDigits, List.foldl_cons, List.foldl_nil, Nat.mul_zero, Nat.zero_add]
        exact digitVal_digitChar n hlt
      · simp only [h, if_true]
        intro c hc
        simp only [List.mem_singleton] at hc
        exact ⟨n % 10, Nat.mod_lt n (by norm_num), hc⟩
    · have hten : 0 < 10 := by norm_num
      have hne : n ≠ 0 := fun h0 => h (by simp [h0])
      have hdiv : n / 10 < n := Nat.div_lt_self (Nat.pos_of_ne_zero hne) (by norm_num)
      have hdf : n / 10 < f := by omega
      obtain ⟨ihev, ihne, ihdig⟩ := ih (n / 10) hdf
      simp only [h, if_false]
      rw [toDigitsCore_shift]
      refine ⟨?_, by simp [ihne], ?_⟩
      · rw [evalDigits, List.foldl_append]
        show 10 * evalDigits (Nat.toDigitsCore 10 f (n / 10) []) +
          digitVal (Nat.digitChar (n % 10)) = n
        rw [ihev, digitVal_digitChar (n % 10) (Nat.mod_lt n hten)]
        omega
      · intro c hc
        rcases List.mem_append.mp hc with hc | hc
        · exact ihdig c hc
        · simp only [List.mem_singleton] at hc
          exact ⟨n % 10, Nat.mod_lt n hten, hc⟩

theorem natRepr_data (n : Nat) : (Nat.repr n).data = Nat.toDigits 10 n := rfl

theorem evalDigits_natRepr (n : Nat) : evalDigits (Nat.repr n).data = n :=
  (toDigitsCore_evalDigits (n + 1) n (Nat.lt_succ_self n)).1

theorem natRepr_ne_nil (n : Nat) : (Nat.repr n).data ≠ [] :=
  (toDigitsCore_evalDigits (n + 1) n (Nat.lt_succ_self n)).2.1

theorem natRepr_digits (n : Nat) :
    ∀ c ∈ (Nat.repr n).data, ∃ k, k < 10 ∧ c = Nat.digitChar k :=
  (toDigitsCore_evalDigits (n + 1) n (Nat.lt_succ_self n)).2.2

theorem natRepr_injective (m n : Nat) (h : Nat.repr m = Nat.repr n) : m = n := by
  have hd := congrArg String.data h
  calc m = evalDigits (Nat.repr m).data := (evalDigits_natRepr m).symm
    _ = evalDigits (Nat.repr n).data := by rw [hd]
    _ = n := evalDigits_natRepr n

theorem intRepr_data_ofNat (m : Nat) :
    (Int.repr (Int.ofNat m)).data = (Nat.repr m).data := rfl

theorem intRepr_data_negSucc (m : Nat) :
    (Int.repr (Int.negSucc m)).data = '-' :: (Nat.repr (m + 1)).data := rfl

theorem intRepr_injective (a b : Int) (h : Int.repr a = Int.repr b) : a = b := by
  have hd := congrArg String.data h
  cases a with
  | ofNat m =>
    cases b with
    | ofNat n =>
      rw [intRepr_data_ofNat, intRepr_data_ofNat] at hd
      exact congrArg Int.ofNat (natRepr_injective m n (String.ext hd))
    | negSucc n =>
      rw [intRepr_data_ofNat, intRepr_data_negSucc] at hd
      have hmem : '-' ∈ (Nat.repr m).data := by rw [hd]; exact List.mem_cons_self _ _
      obtain ⟨k, hk, hc⟩ := natRepr_digits m '-' hmem
      exact absurd hc.symm (digitChar_ne_dash k hk)
  | negSucc m =>
    cases b with
    | ofNat n =>
      rw [intRepr_data_negSucc, intRepr_data_ofNat] at hd
      have hmem : '-' ∈ (Nat.repr n).data := by rw [← hd]; exact List.mem_cons_self _ _
      obtain ⟨k, hk, hc⟩ := natRepr_digits n '-' hmem
      exact absurd hc.symm (digitChar_ne_dash k hk)
    | negSucc n =>
      rw [intRepr_data_negSucc, intRepr_data_negSucc] at hd
      have h1 := natRepr_injective (m + 1) (n + 1) (String.ext (List.tail_eq_of_cons_eq hd))
      have h2 : m = n := by omega
      exact congrArg Int.negSucc h2

theorem intRepr_no_colon (i : Int) : ∀ c ∈ (Int.repr i).data, c ≠ ':' := by
  intro c hc
  cases i with
  | ofNat m =>
    rw [intRepr_data_ofNat] at hc
    obtain ⟨k, hk, hck⟩ := natRepr_digits m c hc
    exact hck ▸ digitChar_ne_colon k hk
  | negSucc m =>
    rw [intRepr_data_negSucc] at hc
    rcases List.mem_cons.mp hc with hc | hc
    · subst hc; decide
    · obtain ⟨k, hk, hck⟩ := natRepr_digits (m + 1) c hc
      exact hck ▸ digitChar_ne_colon k hk

/-- Splitting at a separator whose first character occurs in neither left part
is unambiguous. -/
theorem sep_split_unique (sepc : Char) (sep' : List Char) :
    ∀ (l1 l2 r1 r2 : List Char), (∀ c ∈ l1, c ≠ sepc) → (∀ c ∈ l2, c ≠ sepc) →
    l1 ++ ((sepc :: sep') ++ r1) = l2 ++ ((sepc :: sep') ++ r2) →
    l1 = l2 ∧ r1 = r2 := by
  intro l1
  induction l1 with
  | nil =>
    intro l2 r1 r2 _ h2 h
    cases l2 with
    | nil =>
      simp only [List.nil_append] at h
      exact ⟨rfl, List.append_cancel_left (List.tail_eq_of_cons_eq h)⟩
    | cons c2 t2 =>
      exfalso
      simp only [List.nil_append, List.cons_append] at h
      exact h2 c2 (List.mem_cons_self _ _) (List.head_eq_of_cons_eq h).symm
  | cons c1 t1 ih =>
    intro l2 r1 r2 h1 h2 h
    cases l2 with
    | nil =>
      exfalso
      simp only [List.nil_append, List.cons_append] at h
      exact h1 c1 (List.mem_cons_self _ _) (List.head_eq_of_cons_eq h)
    | cons c2 t2 =>
      simp only [List.cons_append] at h
      have hc := List.head_eq_of_cons_eq h
      have ht := List.tail_eq_of_cons_eq h
      obtain ⟨hl, hr⟩ := ih t2 r1 r2
        (fun c hc => h1 c (List.mem_cons_of_mem _ hc))
        (fun c hc => h2 c (List.mem_cons_of_mem _ hc)) ht
      exact ⟨by rw [hc, hl], hr⟩

namespace RedisCacheService

theorem trendingKey_data (tw : String) (p : Int) :
    (trendingKey tw p).data =
      ("trending_movies:" : String).data ++
        (tw.data ++ ((":page:" : String).data ++ (pyStr p).data)) := by
  simp only [trendingKey, TRENDING_MOVIES_KEY, String.data_append, List.append_assoc]
  rfl

theorem recommendationsKey_data (i : Int) (p : Int) :
    (recommendationsKey i p).data =
      ("recommended_movies:" : String).data ++
        ((pyStr i).data ++ ((":page:" : String).data ++ (pyStr p).data)) := by
  simp only [recommendationsKey, RECOMMENDATIONS_KEY, String.data_append, List.append_assoc]
  rfl

theorem userKey_data (u : Int) :
    (userKey u).data = ("user:" : String).data ++ (pyStr u).data := by
  simp only [userKey, USER_INFO_KEY, String.data_append, List.append_assoc]
  rfl

theorem trendingKey_data_cons (tw : String) (p : Int) :
    (trendingKey tw p).data =
      't' :: (("rending_movies:" : String).data ++
        (tw.data ++ ((":page:" : String).data ++ (pyStr p).data))) := by
  rw [trendingKey_data]; rfl

theorem recommendationsKey_data_cons (i : Int) (p : Int) :
    (recommendationsKey i p).data =
      'r' :: (("ecommended_movies:" : String).data ++
        ((pyStr i).data ++ ((":page:" : String).data ++ (pyStr p).data))) := by
  rw [recommendationsKey_data]; rfl

theorem userKey_data_cons (u : Int) :
    (userKey u).data = 'u' :: (("ser:" : String).data ++ (pyStr u).data) := by
  rw [userKey_data]; rfl

theorem ne_of_head_cons {s t : String} {c d : Char} {ls lt : List Char}
    (hc : c ≠ d) (hs : s.data = c :: ls) (ht : t.data = d :: lt) : s ≠ t := by
  intro h
  rw [h, ht] at hs
  exact hc (List.head_eq_of_cons_eq hs).symm

theorem trendingKey_ne_recommendationsKey (tw : String) (p i q : Int) :
    trendingKey tw p ≠ recommendationsKey i q :=
  ne_of_head_cons (by decide) (trendingKey_data_cons tw p) (recommendationsKey_data_cons i q)

theorem trendingKey_ne_userKey (tw : String) (p u : Int) :
    trendingKey tw p ≠ userKey u :=
  ne_of_head_cons (by decide) (trendingKey_data_cons tw p) (userKey_data_cons u)

theorem recommendationsKey_ne_userKey (i q u : Int) :
    recommendationsKey i q ≠ userKey u :=
  ne_of_head_cons (by decide) (recommendationsKey_data_cons i q) (userKey_data_cons u)

theorem userKey_inj (u1 u2 : Int) (h : userKey u1 = userKey u2) : u1 = u2 := by
  have hd := congrArg String.data h
  rw [userKey_data, userKey_data] at hd
  exact intRepr_injective u1 u2 (String.ext (List.append_cancel_left hd))

theorem trendingKey_inj_cf (tw1 tw2 : String) (p1 p2 : Int)
    (h1 : ∀ c ∈ tw1.data, c ≠ ':') (h2 : ∀ c ∈ tw2.data, c ≠ ':')
    (h : trendingKey tw1 p1 = trendingKey tw2 p2) : tw1 = tw2 ∧ p1 = p2 := by
  have hd := congrArg String.data h
  rw [trendingKey_data, trendingKey_data] at hd
  have hsplit := List.append_cancel_left hd
  rw [show ((":page:" : String).data) = ':' :: ("page:" : String).data from rfl] at hsplit
  obtain ⟨hl, hr⟩ := sep_split_unique ':' ("page:" : String).data _ _ _ _ h1 h2 hsplit
  exact ⟨String.ext hl, intRepr_injective _ _ (String.ext hr)⟩

theorem recommendationsKey_inj (i1 p1 i2 p2 : Int)
    (h : recommendationsKey i1 p1 = recommendationsKey i2 p2) : i1 = i2 ∧ p1 = p2 := by
  have hd := congrArg String.data h
  rw [recommendationsKey_data, recommendationsKey_data] at hd
  have hsplit := List.append_cancel_left hd
  rw [show ((":page:" : String).data) = ':' :: ("page:" : String).data from rfl] at hsplit
  obtain ⟨hl, hr⟩ := sep_split_unique ':' ("page:" : String).data _ _ _ _
    (intRepr_no_colon i1) (intRepr_no_colon i2) hsplit
  exact ⟨intRepr_injective _ _ (String.ext hl), intRepr_injective _ _ (String.ext hr)⟩

theorem trendingKey_page_inj (tw : String) (p1 p2 : Int)
    (h : trendingKey tw p1 = trendingKey tw p2) : p1 = p2 := by
  have hd := congrArg String.data h
  rw [trendingKey_data, trendingKey_data] at hd
  exact intRepr_injective _ _ (String.ext
    (List.append_cancel_left (List.append_cancel_left (List.append_cancel_left hd))))

theorem storeFind_del_self (s : Store) (k : String) :
    storeFind (storeDel s k) k = none := by
  induction s with
  | nil => rfl
  | cons a t ih =>
    obtain ⟨k1, e⟩ := a
    by_cases h1 : k1 = k
    · simpa [storeDel, h1] using ih
    · simpa [storeDel, storeFind, h1] using ih

theorem storeFind_del_ne (s : Store) (k k' : String) (h : k' ≠ k) :
    storeFind (storeDel s k) k' = storeFind s k' := by
  induction s with
  | nil => rfl
  | cons a t ih =>
    obtain ⟨k1, e⟩ := a
    by_cases h1 : k1 = k
    · have h2 : (k == k') = false := by
        simp only [beq_eq_false_iff_ne, ne_eq]
        exact fun e => h e.symm
      simpa [storeDel, storeFind, h1, h2] using ih
    · by_cases h2 : k1 = k'
      · simp [storeDel, storeFind, h1, h2, h]
      · simpa [storeDel, storeFind, h1, h2] using ih

theorem storeFind_setex_self (s : Store) (k : String) (v : RedisVal) (t : Nat) :
    storeFind (storeSetex s k v t) k = some ⟨v, t⟩ := by
  simp [storeSetex, storeFind]

theorem storeFind_setex_ne (s : Store) (k k' : String) (v : RedisVal) (t : Nat)
    (h : k' ≠ k) : storeFind (storeSetex s k v t) k' = storeFind s k' := by
  have h2 : (k == k') = false := by
    simp only [beq_eq_false_iff_ne, ne_eq]
    exact fun e => h e.symm
  simp only [storeSetex, storeFind, h2, if_false]
  exact storeFind_del_ne s k k' h

/-- Behaviour of the shared `get` shape on a live connection. -/
theorem getByKey_live (s : Store) (key : String) :
    getByKey (some ⟨s, true, true⟩) key =
      .ok (match storeFind s key with
        | none => none
        | some e => if e.val.truthy then deserialize_data e.val else none) := by
  unfold getByKey is_connected redisGet
  cases hf : storeFind s key with
  | none => simp [hf]
  | some e => cases ht : e.val.truthy <;> simp [hf, ht]

/-- Behaviour of the shared `set` shape on a live connection with a
serializable payload. -/
theorem setByKey_live (s : Store) (key : String) (ttl : Nat) (v : Option JsonVal) :
    setByKey (some ⟨s, true, true⟩) key ttl (.ser v) =
      .ok (true, some ⟨storeSetex s key (.json v) ttl, true, true⟩) := by
  unfold setByKey is_connected serialize_data redisSetex
  simp

end RedisCacheService

namespace RedisCacheService

theorem storeFind_cons_self (rest : Store) (k : String) (e : StoredEntry) :
    storeFind ((k, e) :: rest) k = some e := by
  simp [storeFind]

theorem getByKey_noRaise (client : Option RedisConn) (key : String) :
    noRaise (getByKey client key) = true := by
  unfold getByKey
  cases client with
  | none => rfl
  | some c =>
    obtain ⟨s, pingOk, opOk⟩ := c
    cases pingOk
    · rfl
    · cases opOk
      · rfl
      · simp only [is_connected, redisGet]
        cases hf : storeFind s key with
        | none => simp [hf, noRaise]
        | some e => cases ht : e.val.truthy <;> simp [hf, ht, noRaise]

theorem setByKey_noRaise (client : Option RedisConn) (key : String) (ttl : Nat)
    (v : Option JsonVal) : noRaise (setByKey client key ttl (.ser v)) = true := by
  unfold setByKey
  cases client with
  | none => rfl
  | some c =>
    obtain ⟨s, pingOk, opOk⟩ := c
    cases pingOk
    · rfl
    · cases opOk <;> rfl

theorem getByKey_after_set (s : Store) (key : String) (ttl : Nat) (v : Option JsonVal) :
    getByKey (some ⟨storeSetex s key (.json v) ttl, true, true⟩) key = .ok v := by
  rw [getByKey_live, storeFind_setex_self]
  rfl

theorem getByKey_after_set_ne (s : Store) (key key' : String) (ttl : Nat)
    (v : Option JsonVal) (h : key' ≠ key) :
    getByKey (some ⟨storeSetex s key (.json v) ttl, true, true⟩) key' =
      getByKey (some ⟨s, true, true⟩) key' := by
  rw [getByKey_live, getByKey_live, storeFind_setex_ne s key key' _ _ h]

theorem getByKey_after_del_ne (s : Store) (key key' : String) (h : key' ≠ key) :
    getByKey (some ⟨storeDel s key, true, true⟩) key' =
      getByKey (some ⟨s, true, true⟩) key' := by
  rw [getByKey_live, getByKey_live, storeFind_del_ne s key key' h]

theorem getByKey_invalid (s : Store) (key : String) (bytes : String) (t : Nat)
    (hf : storeFind s key = some ⟨.invalid bytes, t⟩) :
    getByKey (some ⟨s, true, true⟩) key = .ok none := by
  rw [getByKey_live, hf]
  simp [RedisVal.truthy, deserialize_data]

/-- Claim C2 counterexample: the claim quantifies over **every** payload, but
for a payload that `json.dumps` rejects (e.g. a Python `set`) a `set_*` call
on a live connection raises the serialization `TypeError` past its boundary:
the method's `except` clause catches only the Redis error classes, and
`_serialize_data` re-raises. -/
theorem c2_counterexample_nonserializable_set_raises :
    noRaise (set_trending_movies (some ⟨[], true, true⟩) (.nonser "set") "day" 1) = false :=
  rfl

/-- Claim C2 (amended): for every cache-store state — no client, connected,
ping failing, or failing mid-operation after a successful ping — and every
**JSON-serializable** payload, no `get_*`/`set_*` operation of the cache
service raises: every `get_*` returns a value or `None` and every `set_*`
returns a boolean, with all Redis backend errors converted into those
results.  (Only a non-serializable payload escapes, per the counterexample.) -/
theorem c2_no_raise_serializable (client : Option RedisConn) (tw : String)
    (p tid uid : Int) (v : Option JsonVal) :
    noRaise (get_trending_movies client tw p) = true ∧
    noRaise (get_movie_recommendations client tid p) = true ∧
    noRaise (get_user_info client uid) = true ∧
    noRaise (set_trending_movies client (.ser v) tw p) = true ∧
    noRaise (set_movie_recommendations client tid (.ser v) p) = true ∧
    noRaise (set_user_info client uid (.ser v)) = true :=
  ⟨getByKey_noRaise client _, getByKey_noRaise client _, getByKey_noRaise client _,
   setByKey_noRaise client _ _ v, setByKey_noRaise client _ _ v, setByKey_noRaise client _ _ v⟩

/-- Claim C3: on a live connection, a `set_*` followed by the matching `get_*`
with identical parameters returns a value deep-equal to the stored payload,
for every JSON-serializable payload — including empty/falsy ones such as the
empty dict, whose serialized form `"{}"` is a truthy string, so the final
conjunct shows such a stored payload is returned as a hit, never as absent. -/
theorem c3_set_get_roundtrip (s : Store) (v : Option JsonVal) (tw : String)
    (p tid uid : Int) :
    (∃ c1, set_trending_movies (some ⟨s, true, true⟩) (.ser v) tw p = .ok (true, c1) ∧
      get_trending_movies c1 tw p = .ok v) ∧
    (∃ c2, set_movie_recommendations (some ⟨s, true, true⟩) tid (.ser v) p = .ok (true, c2) ∧
      get_movie_recommendations c2 tid p = .ok v) ∧
    (∃ c3, set_user_info (some ⟨s, true, true⟩) uid (.ser v) = .ok (true, c3) ∧
      get_user_info c3 uid = .ok v) ∧
    get_trending_movies (some ⟨storeSetex s (trendingKey tw p)
      (.json (some (.obj []))) TRENDING_MOVIES_TTL, true, true⟩) tw p ≠ .ok none := by
  refine ⟨⟨_, setByKey_live s _ _ v, getByKey_after_set s _ _ v⟩,
    ⟨_, setByKey_live s _ _ v, getByKey_after_set s _ _ v⟩,
    ⟨_, setByKey_live s _ _ v, getByKey_after_set s _ _ v⟩, ?_⟩
  rw [show get_trending_movies (some ⟨storeSetex s (trendingKey tw p)
    (.json (some (.obj []))) TRENDING_MOVIES_TTL, true, true⟩) tw p =
    getByKey (some ⟨storeSetex s (trendingKey tw p)
      (.json (some (.obj []))) TRENDING_MOVIES_TTL, true, true⟩) (trendingKey tw p) from rfl,
    getByKey_after_set]
  simp

/-- Claim C5: TTL is fixed per category and installed by the store at write
time — every successful trending or recommendations write records an expiry
of exactly 3600 seconds in the stored entry, and every user-info write one of
exactly 900 seconds; none of the `set_*` signatures accepts a TTL from the
caller, so a category-inappropriate TTL cannot be requested at all. -/
theorem c5_ttl_fixed_per_category (s : Store) (v : Option JsonVal) (tw : String)
    (p tid uid : Int) :
    (∃ c1, set_trending_movies (some ⟨s, true, true⟩) (.ser v) tw p = .ok (true, some c1) ∧
      storeFind c1.store (trendingKey tw p) = some ⟨.json v, 3600⟩) ∧
    (∃ c2, set_movie_recommendations (some ⟨s, true, true⟩) tid (.ser v) p = .ok (true, some c2) ∧
      storeFind c2.store (recommendationsKey tid p) = some ⟨.json v, 3600⟩) ∧
    (∃ c3, set_user_info (some ⟨s, true, true⟩) uid (.ser v) = .ok (true, some c3) ∧
      storeFind c3.store (userKey uid) = some ⟨.json v, 900⟩) ∧
    TRENDING_MOVIES_TTL = 3600 ∧ RECOMMENDATIONS_TTL = 3600 ∧ USER_INFO_TTL = 900 :=
  ⟨⟨_, setByKey_live s _ _ v, storeFind_setex_self s _ (.json v) 3600⟩,
   ⟨_, setByKey_live s _ _ v, storeFind_setex_self s _ (.json v) 3600⟩,
   ⟨_, setByKey_live s _ _ v, storeFind_setex_self s _ (.json v) 900⟩,
   rfl, rfl, rfl⟩

end RedisCacheService

namespace RedisCacheService

/-- Claim C6: cache-key construction is deterministic (a pure function of its
arguments) and injective — for windows in `{day, week}` the trending keys
separate both window and page, recommendation keys separate id and page for
all integers, user keys separate user ids, and the three categories never
collide (their prefixes start with distinct characters); operationally,
caching page 1 of trending(day) leaves a get of trending(day) page 2 and of
trending(week) page 1 unchanged. -/
theorem c6_key_determinism_and_injectivity :
    (∀ (tw : String) (p : Int), trendingKey tw p = trendingKey tw p) ∧
    (∀ (tw1 tw2 : String) (p1 p2 : Int), (tw1 = "day" ∨ tw1 = "week") →
      (tw2 = "day" ∨ tw2 = "week") →
      trendingKey tw1 p1 = trendingKey tw2 p2 → tw1 = tw2 ∧ p1 = p2) ∧
    (∀ i1 p1 i2 p2 : Int,
      recommendationsKey i1 p1 = recommendationsKey i2 p2 → i1 = i2 ∧ p1 = p2) ∧
    (∀ u1 u2 : Int, userKey u1 = userKey u2 → u1 = u2) ∧
    (∀ (tw : String) (p i q u : Int), trendingKey tw p ≠ recommendationsKey i q ∧
      trendingKey tw p ≠ userKey u ∧ recommendationsKey i q ≠ userKey u) ∧
    (∀ (s : Store) (v : Option JsonVal),
      ∃ c', set_trending_movies (some ⟨s, true, true⟩) (.ser v) "day" 1 = .ok (true, c') ∧
        get_trending_movies c' "day" 2 = get_trending_movies (some ⟨s, true, true⟩) "day" 2 ∧
        get_trending_movies c' "week" 1 = get_trending_movies (some ⟨s, true, true⟩) "week" 1) := by
  refine ⟨fun tw p => rfl, ?_, recommendationsKey_inj, userKey_inj, ?_, ?_⟩
  · intro tw1 tw2 p1 p2 h1 h2 h
    refine trendingKey_inj_cf tw1 tw2 p1 p2 ?_ ?_ h
    · rcases h1 with rfl | rfl <;> decide
    · rcases h2 with rfl | rfl <;> decide
  · intro tw p i q u
    exact ⟨trendingKey_ne_recommendationsKey tw p i q, trendingKey_ne_userKey tw p u,
      recommendationsKey_ne_userKey i q u⟩
  · intro s v
    refine ⟨_, setByKey_live s _ _ v, ?_, ?_⟩
    · exact getByKey_after_set_ne s _ _ _ v
        (fun h => absurd (trendingKey_page_inj "day" 2 1 h) (by decide))
    · exact getByKey_after_set_ne s _ _ _ v
        (fun h => absurd (trendingKey_inj_cf "week" "day" 1 1 (by decide) (by decide) h).1
          (by decide))

theorem c6_witness :
    trendingKey "day" 1 = trendingKey "day" 1 ∧
    trendingKey "day" 2 ≠ trendingKey "week" 2 ∧
    trendingKey "day" 1 ≠ trendingKey "day" 2 ∧
    userKey 12 ≠ userKey 34 ∧
    recommendationsKey 5 1 ≠ recommendationsKey 5 2 ∧
    trendingKey "day" 1 ≠ userKey 7 := by
  obtain ⟨hdet, hinj, hrec, huser, hcross, _⟩ := c6_key_determinism_and_injectivity
  exact ⟨hdet "day" 1,
    fun h => absurd (hinj "day" "week" 2 2 (Or.inl rfl) (Or.inr rfl) h).1 (by decide),
    fun h => absurd (hinj "day" "day" 1 2 (Or.inl rfl) (Or.inl rfl) h).2 (by decide),
    fun h => absurd (huser 12 34 h) (by decide),
    fun h => absurd (hrec 5 1 5 2 h).2 (by decide),
    (hcross "day" 1 0 0 7).2.1⟩

/-- Claim C8: on a live connection, `invalidate_user_cache u` succeeds and
deletes exactly the user-info entry of `u`: a subsequent `get_user_info u`
misses, while every trending get, every recommendations get, and the
user-info entry of every other user are unchanged. -/
theorem c8_invalidate_user_frame (s : Store) (u : Int) :
    ∃ c', invalidate_user_cache (some ⟨s, true, true⟩) u = .ok (true, c') ∧
      get_user_info c' u = .ok none ∧
      (∀ (tw : String) (p : Int),
        get_trending_movies c' tw p = get_trending_movies (some ⟨s, true, true⟩) tw p) ∧
      (∀ tid p : Int,
        get_movie_recommendations c' tid p =
          get_movie_recommendations (some ⟨s, true, true⟩) tid p) ∧
      (∀ u' : Int, u' ≠ u →
        get_user_info c' u' = get_user_info (some ⟨s, true, true⟩) u') := by
  refine ⟨some ⟨storeDel s (userKey u), true, true⟩, rfl, ?_, ?_, ?_, ?_⟩
  · show getByKey _ (userKey u) = .ok none
    rw [getByKey_live, storeFind_del_self]
  · intro tw p
    exact getByKey_after_del_ne s _ _ (trendingKey_ne_userKey tw p u)
  · intro tid p
    exact getByKey_after_del_ne s _ _ (recommendationsKey_ne_userKey tid p u)
  · intro u' hu
    exact getByKey_after_del_ne s _ _ (fun h => hu (userKey_inj u' u h))

theorem c8_witness :
    ∃ c', invalidate_user_cache (some ⟨[], true, true⟩) 7 = .ok (true, c') ∧
      get_user_info c' 7 = .ok none ∧
      get_user_info c' 8 = get_user_info (some ⟨[], true, true⟩) 8 ∧
      get_trending_movies c' "day" 1 = get_trending_movies (some ⟨[], true, true⟩) "day" 1 := by
  obtain ⟨c', h1, h2, h3, h4, h5⟩ := c8_invalidate_user_frame [] 7
  exact ⟨c', h1, h2, h5 8 (by decide), h3 "day" 1⟩

/-- Claim C9: the multi-page caching helpers write exactly one entry — the
page carried in the payload (default 1) — and leave every other key,
including all neighboring pages, untouched, while still returning success;
`max_pages` never drives a write. -/
theorem c9_cache_multiple_pages_single_write (s : Store)
    (fields : List (String × JsonVal)) (tw : String) (tid mp : Int) (n : Int)
    (hp : fields.lookup "page" = some (.num n) ∨
      (fields.lookup "page" = none ∧ n = 1)) :
    (∃ c', cache_multiple_trending_pages (some ⟨s, true, true⟩)
        (.ser (some (.obj fields))) tw mp = .ok (true, c') ∧
      get_trending_movies c' tw n = .ok (some (.obj fields)) ∧
      (∀ p' : Int, p' ≠ n →
        get_trending_movies c' tw p' = get_trending_movies (some ⟨s, true, true⟩) tw p') ∧
      (∀ k, k ≠ trendingKey tw n → getByKey c' k = getByKey (some ⟨s, true, true⟩) k)) ∧
    (∃ c'', cache_multiple_recommendation_pages (some ⟨s, true, true⟩) tid
        (.ser (some (.obj fields))) mp = .ok (true, c'') ∧
      get_movie_recommendations c'' tid n = .ok (some (.obj fields)) ∧
      (∀ p' : Int, p' ≠ n →
        get_movie_recommendations c'' tid p' =
          get_movie_recommendations (some ⟨s, true, true⟩) tid p') ∧
      (∀ k, k ≠ recommendationsKey tid n →
        getByKey c'' k = getByKey (some ⟨s, true, true⟩) k)) := by
  have hpage : jsonIntVal ((fields.lookup "page").getD (.num 1)) = n := by
    rcases hp with h | ⟨h, hn⟩
    · simp [h, jsonIntVal]
    · simp [h, jsonIntVal, hn]
  constructor
  · refine ⟨some ⟨storeSetex s (trendingKey tw n) (.json (some (.obj fields)))
      TRENDING_MOVIES_TTL, true, true⟩, ?_, getByKey_after_set s _ _ _, ?_, ?_⟩
    · rw [show cache_multiple_trending_pages (some ⟨s, true, true⟩)
        (.ser (some (.obj fields))) tw mp =
        .ok (true, some ⟨storeSetex s
          (trendingKey tw (jsonIntVal ((fields.lookup "page").getD (.num 1))))
          (.json (some (.obj fields))) TRENDING_MOVIES_TTL, true, true⟩) from rfl, hpage]
    · intro p' hp'
      exact getByKey_after_set_ne s _ _ _ _
        (fun h => hp' (trendingKey_page_inj tw p' n h))
    · intro k hk
      exact getByKey_after_set_ne s _ _ _ _ hk
  · refine ⟨some ⟨storeSetex s (recommendationsKey tid n) (.json (some (.obj fields)))
      RECOMMENDATIONS_TTL, true, true⟩, ?_, getByKey_after_set s _ _ _, ?_, ?_⟩
    · rw [show cache_multiple_recommendation_pages (some ⟨s, true, true⟩) tid
        (.ser (some (.obj fields))) mp =
        .ok (true, some ⟨storeSetex s
          (recommendationsKey tid (jsonIntVal ((fields.lookup "page").getD (.num 1))))
          (.json (some (.obj fields))) RECOMMENDATIONS_TTL, true, true⟩) from rfl, hpage]
    · intro p' hp'
      exact getByKey_after_set_ne s _ _ _ _
        (fun h => hp' ((recommendationsKey_inj tid p' tid n h).2))
    · intro k hk
      exact getByKey_after_set_ne s _ _ _ _ hk

theorem c9_witness :
    ∃ c', cache_multiple_trending_pages (some ⟨[], true, true⟩)
        (.ser (some (.obj [("page", .num 3)]))) "day" 5 = .ok (true, c') ∧
      get_trending_movies c' "day" 3 = .ok (some (.obj [("page", .num 3)])) ∧
      get_trending_movies c' "day" 4 = get_trending_movies (some ⟨[], true, true⟩) "day" 4 := by
  obtain ⟨⟨c', h1, h2, h3, _⟩, _⟩ :=
    c9_cache_multiple_pages_single_write [] [("page", .num 3)] "day" 0 5 3 (Or.inl rfl)
  exact ⟨c', h1, h2, h3 4 (by decide)⟩

/-- Claim C10: a stored byte string that is not valid JSON (corrupted or
foreign entry) makes every `get_*` return `None`, exactly like a cache miss,
with nothing raised: a nonempty invalid string is truthy, so it reaches
`json.loads`, whose failure `_deserialize_data` absorbs into `None`; the
empty string is falsy and is reported as a miss directly. -/
theorem c10_invalid_json_is_miss (rest : Store) (bytes : String) (t : Nat)
    (tw : String) (p tid uid : Int) :
    get_trending_movies (some ⟨(trendingKey tw p, ⟨.invalid bytes, t⟩) :: rest,
      true, true⟩) tw p = .ok none ∧
    get_movie_recommendations (some ⟨(recommendationsKey tid p, ⟨.invalid bytes, t⟩) :: rest,
      true, true⟩) tid p = .ok none ∧
    get_user_info (some ⟨(userKey uid, ⟨.invalid bytes, t⟩) :: rest,
      true, true⟩) uid = .ok none :=
  ⟨getByKey_invalid _ _ bytes t (storeFind_cons_self rest _ _),
   getByKey_invalid _ _ bytes t (storeFind_cons_self rest _ _),
   getByKey_invalid _ _ bytes t (storeFind_cons_self rest _ _)⟩

end RedisCacheService

namespace TMDbClient

theorem make_requestGo_attempts_le (net : Nat → NetOutcome) :
    ∀ (fuel rc : Nat), (make_requestGo net fuel rc).attempts ≤ rc + fuel + 1 := by
  intro fuel
  induction fuel with
  | zero =>
    intro rc
    cases h : net rc with
    | response r => cases hr : handle_response r <;> simp [make_requestGo, h, hr]
    | timeout => simp [make_requestGo, h]
    | connError => simp [make_requestGo, h]
    | requestError m => simp [make_requestGo, h]
  | succ f ih =>
    intro rc
    cases h : net rc with
    | response r =>
      cases hr : handle_response r <;> simp [make_requestGo, h, hr]
    | timeout =>
      have hrest := ih (rc + 1)
      simp only [make_requestGo, h]
      omega
    | connError =>
      have hrest := ih (rc + 1)
      simp only [make_requestGo, h]
      omega
    | requestError m => simp [make_requestGo, h]

/-- Claim C1 (divergence witness): `_handle_response` does map each status to
the specified exception kind — 401/403 to `AuthenticationAPIException`, 404 to
`ExternalAPIException("Movie not found", 404, MOVIE_NOT_FOUND)`, 429 to
`RateLimitAPIException`, 5xx and other non-2xx to `ExternalAPIException` —
but the kind is **not** preserved to the caller: those exceptions are raised
inside `_make_request`'s `try` block, whose final `except Exception` clause
catches every one of them and re-raises a generic
`ExternalAPIException("Unexpected error: <msg>", 502, EXTERNAL_API_ERROR)`,
which is what callers of `get_trending_movies` / `get_movie_details` /
`get_movie_recommendations` observe. -/
theorem c1_status_mapping_wrapped_eval :
    handle_response ⟨401, none⟩ = .error (.authentication "TMDB API authentication failed") ∧
    handle_response ⟨403, none⟩ = .error (.authentication "TMDB API access forbidden") ∧
    handle_response ⟨404, none⟩ = .error (.externalAPI "Movie not found" 404 "MOVIE_NOT_FOUND") ∧
    handle_response ⟨429, none⟩ = .error (.rateLimit "TMDB API rate limit exceeded") ∧
    handle_response ⟨503, none⟩ =
      .error (.externalAPI "TMDB API server error: 503" 502 "EXTERNAL_API_ERROR") ∧
    handle_response ⟨418, none⟩ =
      .error (.externalAPI "TMDB API error: 418" 502 "EXTERNAL_API_ERROR") ∧
    (get_trending_movies (fun _ => .response ⟨401, none⟩) "day" 1).result =
      .error (.externalAPI "Unexpected error: TMDB API authentication failed" 502
        "EXTERNAL_API_ERROR") ∧
    (get_movie_details (fun _ => .response ⟨404, none⟩) 5).result =
      .error (.externalAPI "Unexpected error: Movie not found" 502 "EXTERNAL_API_ERROR") ∧
    (get_movie_recommendations (fun _ => .response ⟨429, none⟩) 5 1).result =
      .error (.externalAPI "Unexpected error: TMDB API rate limit exceeded" 502
        "EXTERNAL_API_ERROR") :=
  ⟨rfl, rfl, rfl, rfl, rfl, rfl, rfl, rfl, rfl⟩

/-- Claim C4: only `Timeout` and `ConnectionError` are retried, each retry
waiting `RETRY_DELAY * 2 ^ attempt` first, with at most `MAX_RETRIES = 3`
retries (so at most 4 HTTP calls); an HTTP response of any status and any
other `RequestException` end the request on attempt 1 with no sleep; a client
that times out twice then succeeds returns the payload after exactly 3
attempts with backoff waits `[1, 2]`; a 429 response makes exactly 1 attempt,
no retry, the rate-limit exception being raised by the status handler; pure
timeouts exhaust the budget after 4 attempts with waits `[1, 2, 4]`. -/
theorem c4_retry_policy :
    (∀ net : Nat → NetOutcome, (make_request net 0).attempts ≤ MAX_RETRIES + 1) ∧
    (∀ (net : Nat → NetOutcome) (fuel rc : Nat),
      (net rc = .timeout ∨ net rc = .connError) →
      make_requestGo net (fuel + 1) rc =
        ⟨(make_requestGo net fuel (rc + 1)).result,
         (make_requestGo net fuel (rc + 1)).attempts,
         RETRY_DELAY * 2 ^ rc :: (make_requestGo net fuel (rc + 1)).sleeps⟩) ∧
    (∀ r : HTTPResponse, make_request (fun _ => .response r) 0 =
      ⟨match handle_response r with
        | .ok v => .ok v
        | .error e => .error (wrapUnexpected e), 1, []⟩) ∧
    (∀ m : String, make_request (fun _ => .requestError m) 0 =
      ⟨.error (.externalAPI ("TMDB API request failed: " ++ m) 502 "EXTERNAL_API_ERROR"),
       1, []⟩) ∧
    (∀ b : Option JsonVal, make_request
      (fun i => if i < 2 then .timeout else .response ⟨200, b⟩) 0 = ⟨.ok b, 3, [1, 2]⟩) ∧
    (∀ b : Option JsonVal,
      (make_request (fun _ => .response ⟨429, b⟩) 0).attempts = 1 ∧
      (make_request (fun _ => .response ⟨429, b⟩) 0).sleeps = [] ∧
      handle_response ⟨429, b⟩ = .error (.rateLimit "TMDB API rate limit exceeded")) ∧
    (∀ b : Option JsonVal, make_request
      (fun i => if i = 0 then .connError else .response ⟨200, b⟩) 0 = ⟨.ok b, 2, [1]⟩) ∧
    make_request (fun _ => .timeout) 0 =
      ⟨.error (.externalAPI "TMDB API request timeout" 502 "EXTERNAL_API_ERROR"),
       4, [1, 2, 4]⟩ := by
  refine ⟨?_, ?_, ?_, fun m => rfl, fun b => rfl, fun b => ⟨rfl, rfl, rfl⟩, fun b => rfl, rfl⟩
  · intro net
    have h := make_requestGo_attempts_le net (MAX_RETRIES - 0) 0
    simpa [make_request, MAX_RETRIES] using h
  · intro net fuel rc h
    rcases h with h | h <;> simp [make_requestGo, h]
  · intro r
    cases hr : handle_response r <;> simp [make_request, make_requestGo, MAX_RETRIES, hr]

theorem c4_witness :
    (make_request (fun _ => .timeout) 0).attempts ≤ MAX_RETRIES + 1 ∧
    make_requestGo (fun _ => .timeout) 3 0 =
      ⟨(make_requestGo (fun _ => .timeout) 2 1).result,
       (make_requestGo (fun _ => .timeout) 2 1).attempts,
       RETRY_DELAY * 2 ^ 0 :: (make_requestGo (fun _ => .timeout) 2 1).sleeps⟩ ∧
    make_request (fun i => if i < 2 then .timeout else .response ⟨200, none⟩) 0 =
      ⟨.ok none, 3, [1, 2]⟩ := by
  obtain ⟨hcap, hretry, _, _, hsucc, _, _, _⟩ := c4_retry_policy
  exact ⟨hcap _, hretry _ 2 0 (Or.inl rfl), hsucc none⟩

/-- Claim C7: every invalid input — a time window outside `{day, week}`, a
page below 1, a non-positive movie id, an empty or whitespace-only search
query — makes the corresponding client operation raise `ValueError` with the
source's message and perform no network request at all (`valErr` carries
0 attempts and no sleeps). -/
theorem c7_validation_no_network (net : Nat → NetOutcome) (tw : String)
    (p mid : Int) (q : String) :
    ((tw ≠ "day" ∧ tw ≠ "week") →
      get_trending_movies net tw p = valErr "time_window must be 'day' or 'week'") ∧
    ((tw = "day" ∨ tw = "week") → p < 1 →
      get_trending_movies net tw p = valErr "page must be greater than 0") ∧
    (mid ≤ 0 → get_movie_details net mid = valErr "movie_id must be a valid integer") ∧
    (q.data.all Char.isWhitespace = true →
      search_movies net q p = valErr "query cannot be empty") ∧
    (q.data.all Char.isWhitespace = false → p < 1 →
      search_movies net q p = valErr "page must be greater than 0") ∧
    (mid ≤ 0 →
      get_movie_recommendations net mid p = valErr "movie_id must be a valid integer") ∧
    (0 < mid → p < 1 →
      get_movie_recommendations net mid p = valErr "page must be greater than 0") ∧
    (p < 1 → get_popular_movies net p = valErr "page must be greater than 0") := by
  refine ⟨?_, ?_, ?_, ?_, ?_, ?_, ?_, ?_⟩
  · intro h
    simp [get_trending_movies, h.1, h.2]
  · intro h hp
    rcases h with rfl | rfl <;> simp [get_trending_movies, hp]
  · intro h
    simp [get_movie_details, h]
  · intro h
    simp [search_movies, h]
  · intro hq hp
    have hq0 : q ≠ "" := fun h0 => by rw [h0] at hq; exact absurd hq (by decide)
    simp [search_movies, hq, hq0, hp]
  · intro h
    simp [get_movie_recommendations, h]
  · intro h hp
    have : ¬(mid ≤ 0) := by omega
    simp [get_movie_recommendations, this, hp]
  · intro h
    simp [get_popular_movies, h]

theorem c7_witness :
    get_trending_movies (fun _ => .timeout) "month" 1 =
      valErr "time_window must be 'day' or 'week'" ∧
    get_trending_movies (fun _ => .timeout) "day" 0 =
      valErr "page must be greater than 0" ∧
    get_movie_details (fun _ => .timeout) 0 = valErr "movie_id must be a valid integer" ∧
    search_movies (fun _ => .timeout) "   " 1 = valErr "query cannot be empty" ∧
    search_movies (fun _ => .timeout) "dune" 0 = valErr "page must be greater than 0" ∧
    get_movie_recommendations (fun _ => .timeout) (-5) 1 =
      valErr "movie_id must be a valid integer" ∧
    get_movie_recommendations (fun _ => .timeout) 5 (-2) =
      valErr "page must be greater than 0" ∧
    get_popular_movies (fun _ => .timeout) 0 = valErr "page must be greater than 0" :=
  ⟨(c7_validation_no_network _ "month" 1 1 "x").1 ⟨by decide, by decide⟩,
   (c7_validation_no_network _ "day" 0 1 "x").2.1 (Or.inl rfl) (by decide),
   (c7_validation_no_network _ "day" 1 0 "x").2.2.1 (by decide),
   (c7_validation_no_network _ "day" 1 1 "   ").2.2.2.1 (by decide),
   (c7_validation_no_network _ "day" 0 1 "dune").2.2.2.2.1 (by decide) (by decide),
   (c7_validation_no_network _ "day" 1 (-5) "x").2.2.2.2.2.1 (by decide),
   (c7_validation_no_network _ "day" (-2) 5 "x").2.2.2.2.2.2.1 (by decide) (by decide),
   (c7_validation_no_network _ "day" 0 1 "x").2.2.2.2.2.2.2 (by decide)⟩

end TMDbClient
